import Mathlib

/-!
Verification of the memoizing call cache of `huti` (src/huti/functions.py,
function `cache`, lines 409-447).

The decorator builds a fresh empty memo dictionary, decides once at wrap
time whether the wrapped callable is a coroutine function, and installs one
of two wrapper bodies (an `async def` one and a plain `def` one, textually
identical up to the `await`).  Each wrapper body does:

    key = None
    save = True
    try:
        key = jsonpickle.encode((args, kwargs))
        if key in memo:
            return memo[key]
    except Exception as exception:
        log.warning("Not cached", ...)
        save = False
    value = func(*args, **kwargs)        # await func(...) in the async body
    if key and save:
        memo[key] = value
    return value

Embedding choices:
  * The Python dict `memo` is an association list with Python's dict
    semantics: lookup returns the bound value, assignment replaces in place
    or appends.
  * The external serializer `jsonpickle.encode` is a parameter
    `encode : A → Option κ`; `none` models the serializer raising (the only
    statement inside the `try` that can raise: the key is a string, so the
    membership test and the indexing cannot).  Per the spec, the serializer
    is deterministic (it is a function) and canonical for structurally equal
    inputs (structurally equal arguments are the same value of `A`).
  * The wrapped callable is `f : A → σ → Except ε α × σ`: it reads and
    writes a side-effect state `σ` and either returns a value or raises an
    exception `ε` (possibly after having mutated the state).
  * A call of the wrapper returns a `CallResult`: the outcome handed to the
    caller, the memo table after the call, the callable's state after the
    call, how many times the wrapped callable was invoked during the call,
    and how many warning-level log events were emitted during the call.
-/

namespace Huti

/-- Python dict lookup `memo[key]` / membership `key in memo` on the
association-list model of the memo table: the value bound to the key, if
present. -/
def dictLookup {κ α : Type} [DecidableEq κ] : List (κ × α) → κ → Option α
  | [], _ => none
  | (k, v) :: rest, key => if key = k then some v else dictLookup rest key

/-- Python dict assignment `memo[key] = val`: replace the binding in place
when the key is present, append a new binding otherwise. -/
def dictInsert {κ α : Type} [DecidableEq κ] : List (κ × α) → κ → α → List (κ × α)
  | [], key, val => [(key, val)]
  | (k, v) :: rest, key, val =>
      if key = k then (key, val) :: rest else (k, v) :: dictInsert rest key val

/-- Everything one wrapper call produces: the outcome returned (or raised)
to the caller, the memo table and the wrapped callable's side-effect state
after the call, the number of invocations of the wrapped callable made by
the call, and the number of warning-level log events the call emitted. -/
structure CallResult (κ α σ ε : Type) where
  result : Except ε α
  memo : List (κ × α)
  fstate : σ
  calls : Nat
  warnings : Nat

/-- The synchronous wrapper body (functions.py lines 431-446).

`encode a = some key` models `jsonpickle.encode((args, kwargs))` returning
`key`; `encode a = none` models it raising, in which case the `except`
branch logs one warning and sets `save = False`, so the call proceeds
uncached.  On a hit the stored value is returned before `func` runs.  On a
miss `value = func(*args, **kwargs)` runs outside the `try`, so an
exception of `func` propagates unchanged and skips the store. -/
def cacheCall {κ α σ ε A : Type} [DecidableEq κ]
    (encode : A → Option κ) (func : A → σ → Except ε α × σ)
    (memo : List (κ × α)) (s : σ) (a : A) : CallResult κ α σ ε :=
  match encode a with
  | some key =>
      match dictLookup memo key with
      | some v =>
          { result := Except.ok v, memo := memo, fstate := s, calls := 0, warnings := 0 }
      | none =>
          match func a s with
          | (Except.error e, s') =>
              { result := Except.error e, memo := memo, fstate := s', calls := 1, warnings := 0 }
          | (Except.ok v, s') =>
              { result := Except.ok v, memo := dictInsert memo key v, fstate := s',
                calls := 1, warnings := 0 }
  | none =>
      match func a s with
      | (Except.error e, s') =>
          { result := Except.error e, memo := memo, fstate := s', calls := 1, warnings := 1 }
      | (Except.ok v, s') =>
          { result := Except.ok v, memo := memo, fstate := s', calls := 1, warnings := 1 }

/-- The asynchronous wrapper body (functions.py lines 414-429): textually
the same algorithm as the synchronous body, with `value = await func(...)`;
in the pure embedding the single suspension point is transparent, so the
body is embedded by the same steps, kept as its own definition to mirror
the two distinct wrapper closures in the source. -/
def cacheCallAsync {κ α σ ε A : Type} [DecidableEq κ]
    (encode : A → Option κ) (func : A → σ → Except ε α × σ)
    (memo : List (κ × α)) (s : σ) (a : A) : CallResult κ α σ ε :=
  match encode a with
  | some key =>
      match dictLookup memo key with
      | some v =>
          { result := Except.ok v, memo := memo, fstate := s, calls := 0, warnings := 0 }
      | none =>
          match func a s with
          | (Except.error e, s') =>
              { result := Except.error e, memo := memo, fstate := s', calls := 1, warnings := 0 }
          | (Except.ok v, s') =>
              { result := Except.ok v, memo := dictInsert memo key v, fstate := s',
                calls := 1, warnings := 0 }
  | none =>
      match func a s with
      | (Except.error e, s') =>
          { result := Except.error e, memo := memo, fstate := s', calls := 1, warnings := 1 }
      | (Except.ok v, s') =>
          { result := Except.ok v, memo := memo, fstate := s', calls := 1, warnings := 1 }

/-- A Python callable as the decorator sees it: its `__name__`, its
`__doc__`, whether `inspect.iscoroutinefunction` holds of it, and its
behaviour. -/
structure PyFunc (A σ ε α : Type) where
  name : String
  doc : Option String
  coroutine : Bool
  run : A → σ → Except ε α × σ

/-- `inspect.iscoroutinefunction(func)`. -/
def iscoroutinefunction {A σ ε α : Type} (f : PyFunc A σ ε α) : Bool :=
  f.coroutine

/-- The callable `cache` returns: the metadata `functools.wraps` copied
from the wrapped callable (`__name__`, `__doc__`, and the `__wrapped__`
attribute pointing back at it), whether the wrapper itself is a coroutine
function, and the per-call behaviour over the shared memo table and the
callable's side-effect state. -/
structure CacheWrapper (κ A σ ε α : Type) where
  name : String
  doc : Option String
  wrapped : PyFunc A σ ε α
  coroutine : Bool
  call : List (κ × α) → σ → A → CallResult κ α σ ε

/-- `functools.wraps(func)` applied to a freshly built wrapper: overwrite
the wrapper's `__name__` and `__doc__` with the wrapped callable's and set
`__wrapped__` to the wrapped callable itself. -/
def functoolsWraps {κ A σ ε α : Type} (func : PyFunc A σ ε α)
    (w : CacheWrapper κ A σ ε α) : CacheWrapper κ A σ ε α :=
  { w with name := func.name, doc := func.doc, wrapped := func }

/-- The decorator `cache` (functions.py lines 409-447): build a fresh memo
(the initial table of the returned wrapper is `[]`), compute
`coro = inspect.iscoroutinefunction(func)` once, and return the async
wrapper body when `coro` holds and the sync wrapper body otherwise, each
wrapped by `functools.wraps(func)`.  The structlog configuration calls have
no bearing on the cache semantics and are not modelled beyond the warning
counter of `CallResult`. -/
def cache {κ A σ ε α : Type} [DecidableEq κ]
    (encode : A → Option κ) (func : PyFunc A σ ε α) : CacheWrapper κ A σ ε α :=
  let coro := iscoroutinefunction func
  if coro then
    functoolsWraps func
      { name := "wrapper", doc := some "Async Cache Wrapper.", wrapped := func,
        coroutine := true,
        call := fun memo s a => cacheCallAsync encode func.run memo s a }
  else
    functoolsWraps func
      { name := "wrapper", doc := some "Cache Wrapper.", wrapped := func,
        coroutine := false,
        call := fun memo s a => cacheCall encode func.run memo s a }

/-- Two sequential calls of the synchronous wrapper, threading the memo
table and the callable's state from the first call into the second. -/
def callTwice {κ α σ ε A : Type} [DecidableEq κ]
    (encode : A → Option κ) (func : A → σ → Except ε α × σ)
    (memo : List (κ × α)) (s : σ) (a b : A) :
    CallResult κ α σ ε × CallResult κ α σ ε :=
  let r1 := cacheCall encode func memo s a
  (r1, cacheCall encode func r1.memo r1.fstate b)

/-- Two sequential awaited calls of the asynchronous wrapper, threading the
memo table and the callable's state from the first call into the second. -/
def callTwiceAsync {κ α σ ε A : Type} [DecidableEq κ]
    (encode : A → Option κ) (func : A → σ → Except ε α × σ)
    (memo : List (κ × α)) (s : σ) (a b : A) :
    CallResult κ α σ ε × CallResult κ α σ ε :=
  let r1 := cacheCallAsync encode func memo s a
  (r1, cacheCallAsync encode func r1.memo r1.fstate b)

/-- Looking up a key right after storing it finds the stored value. -/
theorem dictLookup_dictInsert_self {κ α : Type} [DecidableEq κ]
    (memo : List (κ × α)) (k : κ) (v : α) :
    dictLookup (dictInsert memo k v) k = some v := by
  induction memo with
  | nil => simp [dictInsert, dictLookup]
  | cons p rest ih =>
    obtain ⟨k0, v0⟩ := p
    by_cases h : k = k0 <;> simp [dictInsert, dictLookup, h, ih]

/-- Storing under one key leaves the binding of every other key intact. -/
theorem dictLookup_dictInsert_preserve {κ α : Type} [DecidableEq κ]
    (memo : List (κ × α)) (k k' : κ) (v x : α)
    (h : dictLookup memo k = some v) (hne : k ≠ k') :
    dictLookup (dictInsert memo k' x) k = some v := by
  induction memo with
  | nil => simp [dictLookup] at h
  | cons p rest ih =>
    obtain ⟨k0, v0⟩ := p
    by_cases h0 : k' = k0
    · subst h0
      simp only [dictInsert, if_pos rfl]
      simp only [dictLookup, if_neg hne] at h ⊢
      exact h
    · simp only [dictInsert, if_neg h0]
      by_cases h1 : k = k0
      · simp only [dictLookup, if_pos h1] at h ⊢
        exact h
      · simp only [dictLookup, if_neg h1] at h ⊢
        exact ih h

/-- C1: for every synchronous callable wrapped by `cache` and every
argument whose key derivation succeeds, calling the wrapper twice with that
argument on the fresh (empty) memo executes the callable exactly once: the
first call is a miss that invokes it and stores the result in the returned
memo, and the second call is a hit that returns the stored result without
invoking it (zero invocations, callable state untouched). -/
theorem cache_sync_two_calls_single_execution
    {κ α σ ε A : Type} [DecidableEq κ]
    (encode : A → Option κ) (f : A → σ → Except ε α × σ)
    (a : A) (s s' : σ) (k : κ) (v : α)
    (hk : encode a = some k) (hf : f a s = (Except.ok v, s')) :
    (callTwice encode f [] s a a).1.calls = 1 ∧
    (callTwice encode f [] s a a).1.result = Except.ok v ∧
    dictLookup (callTwice encode f [] s a a).1.memo k = some v ∧
    (callTwice encode f [] s a a).2.calls = 0 ∧
    (callTwice encode f [] s a a).2.result = Except.ok v ∧
    (callTwice encode f [] s a a).2.fstate = s' := by
  simp [callTwice, cacheCall, hk, hf, dictLookup, dictInsert]

/-- Witness for C1 at a concrete callable `f n s = (n + s, s + 1)` with the
identity key derivation, argument `5`, initial state `0`. -/
theorem cache_sync_two_calls_single_execution_witness :
    (callTwice (fun n : Nat => some n)
        (fun n s => ((Except.ok (n + s) : Except Unit Nat), s + 1)) [] 0 5 5).1.calls = 1 ∧
    (callTwice (fun n : Nat => some n)
        (fun n s => ((Except.ok (n + s) : Except Unit Nat), s + 1)) [] 0 5 5).1.result
      = Except.ok 5 ∧
    dictLookup (callTwice (fun n : Nat => some n)
        (fun n s => ((Except.ok (n + s) : Except Unit Nat), s + 1)) [] 0 5 5).1.memo 5
      = some 5 ∧
    (callTwice (fun n : Nat => some n)
        (fun n s => ((Except.ok (n + s) : Except Unit Nat), s + 1)) [] 0 5 5).2.calls = 0 ∧
    (callTwice (fun n : Nat => some n)
        (fun n s => ((Except.ok (n + s) : Except Unit Nat), s + 1)) [] 0 5 5).2.result
      = Except.ok 5 ∧
    (callTwice (fun n : Nat => some n)
        (fun n s => ((Except.ok (n + s) : Except Unit Nat), s + 1)) [] 0 5 5).2.fstate = 1 :=
  cache_sync_two_calls_single_execution (fun n : Nat => some n)
    (fun n s => ((Except.ok (n + s) : Except Unit Nat), s + 1)) 5 0 1 5 5 rfl rfl

/-- C4: the sync-vs-async choice is made at wrap time from
`inspect.iscoroutinefunction` alone: the wrapper `cache` returns is a
coroutine function exactly when the wrapped callable is one, so an
asynchronous callable yields an asynchronous wrapper and a synchronous
callable a synchronous one. -/
theorem cache_wrap_time_convention
    {κ A σ ε α : Type} [DecidableEq κ]
    (encode : A → Option κ) (func : PyFunc A σ ε α) :
    (cache encode func : CacheWrapper κ A σ ε α).coroutine = iscoroutinefunction func := by
  cases h : func.coroutine <;>
    simp [cache, iscoroutinefunction, functoolsWraps, h]

/-- C7: on a cache hit (the derived key is bound in the memo table) both
wrapper bodies return the stored result without invoking the wrapped
callable: zero invocations, the callable's state untouched, the memo table
unchanged, and no warning emitted. -/
theorem cache_hit_frame
    {κ α σ ε A : Type} [DecidableEq κ]
    (encode : A → Option κ) (f : A → σ → Except ε α × σ)
    (memo : List (κ × α)) (s : σ) (a : A) (k : κ) (v : α)
    (hk : encode a = some k) (hv : dictLookup memo k = some v) :
    cacheCall encode f memo s a
      = { result := Except.ok v, memo := memo, fstate := s, calls := 0, warnings := 0 } ∧
    cacheCallAsync encode f memo s a
      = { result := Except.ok v, memo := memo, fstate := s, calls := 0, warnings := 0 } := by
  constructor <;> simp [cacheCall, cacheCallAsync, hk, hv]

/-- Witness for C7: a memo already holding key `3` with value `7`. -/
theorem cache_hit_frame_witness :
    cacheCall (fun n : Nat => some n)
        (fun n s => ((Except.ok (n + s) : Except Unit Nat), s + 1)) [(3, 7)] 0 3
      = { result := Except.ok 7, memo := [(3, 7)], fstate := 0, calls := 0, warnings := 0 } ∧
    cacheCallAsync (fun n : Nat => some n)
        (fun n s => ((Except.ok (n + s) : Except Unit Nat), s + 1)) [(3, 7)] 0 3
      = { result := Except.ok 7, memo := [(3, 7)], fstate := 0, calls := 0, warnings := 0 } :=
  cache_hit_frame (fun n : Nat => some n)
    (fun n s => ((Except.ok (n + s) : Except Unit Nat), s + 1)) [(3, 7)] 0 3 3 7 rfl rfl

/-- C9: the result a hit returns is the stored value itself: after a first
(miss) call, the second and third calls with the same argument return
exactly the value bound in the memo, which equals the first call's result,
so repeated application to equal arguments is idempotent in its result and
in the memo table. -/
theorem cache_hit_returns_stored_value
    {κ α σ ε A : Type} [DecidableEq κ]
    (encode : A → Option κ) (f : A → σ → Except ε α × σ)
    (a : A) (s s' : σ) (k : κ) (v : α)
    (hk : encode a = some k) (hf : f a s = (Except.ok v, s')) :
    dictLookup (cacheCall encode f [] s a).memo k = some v ∧
    (callTwice encode f [] s a a).2.result = (callTwice encode f [] s a a).1.result ∧
    (callTwice encode f [] s a a).2.result = Except.ok v ∧
    (callTwice encode f [] s a a).2.memo = (callTwice encode f [] s a a).1.memo ∧
    (cacheCall encode f (callTwice encode f [] s a a).2.memo
        (callTwice encode f [] s a a).2.fstate a).result = Except.ok v := by
  simp [callTwice, cacheCall, hk, hf, dictLookup, dictInsert]

/-- Witness for C9 at a concrete callable and argument `4`. -/
theorem cache_hit_returns_stored_value_witness :
    dictLookup (cacheCall (fun n : Nat => some n)
        (fun n s => ((Except.ok (n + s) : Except Unit Nat), s + 1)) [] 0 4).memo 4 = some 4 ∧
    (callTwice (fun n : Nat => some n)
        (fun n s => ((Except.ok (n + s) : Except Unit Nat), s + 1)) [] 0 4 4).2.result
      = (callTwice (fun n : Nat => some n)
        (fun n s => ((Except.ok (n + s) : Except Unit Nat), s + 1)) [] 0 4 4).1.result ∧
    (callTwice (fun n : Nat => some n)
        (fun n s => ((Except.ok (n + s) : Except Unit Nat), s + 1)) [] 0 4 4).2.result
      = Except.ok 4 ∧
    (callTwice (fun n : Nat => some n)
        (fun n s => ((Except.ok (n + s) : Except Unit Nat), s + 1)) [] 0 4 4).2.memo
      = (callTwice (fun n : Nat => some n)
        (fun n s => ((Except.ok (n + s) : Except Unit Nat), s + 1)) [] 0 4 4).1.memo ∧
    (cacheCall (fun n : Nat => some n)
        (fun n s => ((Except.ok (n + s) : Except Unit Nat), s + 1))
        (callTwice (fun n : Nat => some n)
          (fun n s => ((Except.ok (n + s) : Except Unit Nat), s + 1)) [] 0 4 4).2.memo
        (callTwice (fun n : Nat => some n)
          (fun n s => ((Except.ok (n + s) : Except Unit Nat), s + 1)) [] 0 4 4).2.fstate
        4).result = Except.ok 4 :=
  cache_hit_returns_stored_value (fun n : Nat => some n)
    (fun n s => ((Except.ok (n + s) : Except Unit Nat), s + 1)) 4 0 1 4 4 rfl rfl

/-- C10: `functools.wraps` gives the wrapper the wrapped callable's
identity and metadata: the wrapper returned by `cache` has the callable's
name and docstring, and the callable itself, unchanged, is reachable as the
wrapper's `__wrapped__` attribute. -/
theorem cache_functools_wraps_metadata
    {κ A σ ε α : Type} [DecidableEq κ]
    (encode : A → Option κ) (func : PyFunc A σ ε α) :
    (cache encode func : CacheWrapper κ A σ ε α).name = func.name ∧
    (cache encode func : CacheWrapper κ A σ ε α).doc = func.doc ∧
    (cache encode func : CacheWrapper κ A σ ε α).wrapped = func := by
  cases h : func.coroutine <;>
    simp [cache, iscoroutinefunction, functoolsWraps, h]

/-- C2: when key derivation fails (`encode a = none`, the serializer
raised), no exception reaches the caller: the wrapped callable still runs
and its result is returned, the memo table is untouched, and the call emits
exactly one warning; a second identical call runs the callable again with
one more warning; and a later call with serializable arguments is cached
normally (miss stores, the following identical call hits). -/
theorem cache_encode_failure_uncached
    {κ α σ ε A : Type} [DecidableEq κ]
    (encode : A → Option κ) (f : A → σ → Except ε α × σ)
    (s s' s'' s3 : σ) (a b : A) (kb : κ) (v w u : α)
    (ha : encode a = none)
    (hf : f a s = (Except.ok v, s'))
    (hf2 : f a s' = (Except.ok w, s''))
    (hb : encode b = some kb)
    (hfb : f b s'' = (Except.ok u, s3)) :
    (callTwice encode f [] s a a).1.result = Except.ok v ∧
    (callTwice encode f [] s a a).1.memo = [] ∧
    (callTwice encode f [] s a a).1.calls = 1 ∧
    (callTwice encode f [] s a a).1.warnings = 1 ∧
    (callTwice encode f [] s a a).2.result = Except.ok w ∧
    (callTwice encode f [] s a a).2.calls = 1 ∧
    (callTwice encode f [] s a a).2.warnings = 1 ∧
    (callTwice encode f [] s a a).2.memo = [] ∧
    (callTwice encode f [] s'' b b).1.calls = 1 ∧
    dictLookup (callTwice encode f [] s'' b b).1.memo kb = some u ∧
    (callTwice encode f [] s'' b b).2.calls = 0 ∧
    (callTwice encode f [] s'' b b).2.result = Except.ok u := by
  simp [callTwice, cacheCall, ha, hb, hf, hf2, hfb, dictLookup, dictInsert]

/-- Witness for C2: the serializer fails exactly on argument `0`;
argument `0` twice (uncached, two warnings), then argument `3` twice
(cached normally). -/
theorem cache_encode_failure_uncached_witness :
    (callTwice (fun n : Nat => if n = 0 then none else some n)
        (fun n s => ((Except.ok (n + s) : Except Unit Nat), s + 1)) [] 0 0 0).1.result
      = Except.ok 0 ∧
    (callTwice (fun n : Nat => if n = 0 then none else some n)
        (fun n s => ((Except.ok (n + s) : Except Unit Nat), s + 1)) [] 0 0 0).1.memo = [] ∧
    (callTwice (fun n : Nat => if n = 0 then none else some n)
        (fun n s => ((Except.ok (n + s) : Except Unit Nat), s + 1)) [] 0 0 0).1.calls = 1 ∧
    (callTwice (fun n : Nat => if n = 0 then none else some n)
        (fun n s => ((Except.ok (n + s) : Except Unit Nat), s + 1)) [] 0 0 0).1.warnings = 1 ∧
    (callTwice (fun n : Nat => if n = 0 then none else some n)
        (fun n s => ((Except.ok (n + s) : Except Unit Nat), s + 1)) [] 0 0 0).2.result
      = Except.ok 1 ∧
    (callTwice (fun n : Nat => if n = 0 then none else some n)
        (fun n s => ((Except.ok (n + s) : Except Unit Nat), s + 1)) [] 0 0 0).2.calls = 1 ∧
    (callTwice (fun n : Nat => if n = 0 then none else some n)
        (fun n s => ((Except.ok (n + s) : Except Unit Nat), s + 1)) [] 0 0 0).2.warnings = 1 ∧
    (callTwice (fun n : Nat => if n = 0 then none else some n)
        (fun n s => ((Except.ok (n + s) : Except Unit Nat), s + 1)) [] 0 0 0).2.memo = [] ∧
    (callTwice (fun n : Nat => if n = 0 then none else some n)
        (fun n s => ((Except.ok (n + s) : Except Unit Nat), s + 1)) [] 2 3 3).1.calls = 1 ∧
    dictLookup (callTwice (fun n : Nat => if n = 0 then none else some n)
        (fun n s => ((Except.ok (n + s) : Except Unit Nat), s + 1)) [] 2 3 3).1.memo 3
      = some 5 ∧
    (callTwice (fun n : Nat => if n = 0 then none else some n)
        (fun n s => ((Except.ok (n + s) : Except Unit Nat), s + 1)) [] 2 3 3).2.calls = 0 ∧
    (callTwice (fun n : Nat => if n = 0 then none else some n)
        (fun n s => ((Except.ok (n + s) : Except Unit Nat), s + 1)) [] 2 3 3).2.result
      = Except.ok 5 :=
  cache_encode_failure_uncached (fun n : Nat => if n = 0 then none else some n)
    (fun n s => ((Except.ok (n + s) : Except Unit Nat), s + 1)) 0 1 2 3 0 3 3 0 1 5
    rfl rfl rfl rfl rfl

/-- C3: if the wrapped callable raises on a miss, both wrapper bodies raise
the same exception to the caller and store nothing, so a subsequent
identical call invokes the callable again (and raises whatever it raises
then). -/
theorem cache_propagates_exception
    {κ α σ ε A : Type} [DecidableEq κ]
    (encode : A → Option κ) (f : A → σ → Except ε α × σ)
    (memo : List (κ × α)) (s s' s'' : σ) (a : A) (k : κ) (e e2 : ε)
    (hk : encode a = some k) (hm : dictLookup memo k = none)
    (hf : f a s = (Except.error e, s')) (hf2 : f a s' = (Except.error e2, s'')) :
    (callTwice encode f memo s a a).1.result = Except.error e ∧
    (callTwice encode f memo s a a).1.memo = memo ∧
    (callTwice encode f memo s a a).1.calls = 1 ∧
    (callTwice encode f memo s a a).2.result = Except.error e2 ∧
    (callTwice encode f memo s a a).2.calls = 1 ∧
    (callTwice encode f memo s a a).2.memo = memo ∧
    (callTwiceAsync encode f memo s a a).1.result = Except.error e ∧
    (callTwiceAsync encode f memo s a a).1.memo = memo ∧
    (callTwiceAsync encode f memo s a a).2.calls = 1 := by
  simp [callTwice, callTwiceAsync, cacheCall, cacheCallAsync, hk, hm, hf, hf2]

/-- Witness for C3: a callable that always raises, raising its argument
plus the current state as the exception value. -/
theorem cache_propagates_exception_witness :
    (callTwice (fun n : Nat => some n)
        (fun n s => ((Except.error (n + s) : Except Nat Nat), s + 1)) [] 0 3 3).1.result
      = Except.error 3 ∧
    (callTwice (fun n : Nat => some n)
        (fun n s => ((Except.error (n + s) : Except Nat Nat), s + 1)) [] 0 3 3).1.memo = [] ∧
    (callTwice (fun n : Nat => some n)
        (fun n s => ((Except.error (n + s) : Except Nat Nat), s + 1)) [] 0 3 3).1.calls = 1 ∧
    (callTwice (fun n : Nat => some n)
        (fun n s => ((Except.error (n + s) : Except Nat Nat), s + 1)) [] 0 3 3).2.result
      = Except.error 4 ∧
    (callTwice (fun n : Nat => some n)
        (fun n s => ((Except.error (n + s) : Except Nat Nat), s + 1)) [] 0 3 3).2.calls = 1 ∧
    (callTwice (fun n : Nat => some n)
        (fun n s => ((Except.error (n + s) : Except Nat Nat), s + 1)) [] 0 3 3).2.memo = [] ∧
    (callTwiceAsync (fun n : Nat => some n)
        (fun n s => ((Except.error (n + s) : Except Nat Nat), s + 1)) [] 0 3 3).1.result
      = Except.error 3 ∧
    (callTwiceAsync (fun n : Nat => some n)
        (fun n s => ((Except.error (n + s) : Except Nat Nat), s + 1)) [] 0 3 3).1.memo = [] ∧
    (callTwiceAsync (fun n : Nat => some n)
        (fun n s => ((Except.error (n + s) : Except Nat Nat), s + 1)) [] 0 3 3).2.calls = 1 :=
  cache_propagates_exception (fun n : Nat => some n)
    (fun n s => ((Except.error (n + s) : Except Nat Nat), s + 1)) [] 0 1 2 3 3 3 4
    rfl rfl rfl rfl

/-- C5: the asynchronous wrapper body computes exactly what the synchronous
body computes on every input, and two sequential awaited calls with the
same serializable argument on the fresh memo produce exactly one underlying
execution, both awaited calls returning the same result — the same hit/miss
behaviour as the synchronous wrapper. -/
theorem cache_async_matches_sync
    {κ α σ ε A : Type} [DecidableEq κ]
    (encode : A → Option κ) (f : A → σ → Except ε α × σ)
    (memo0 : List (κ × α)) (s0 : σ) (b : A)
    (a : A) (s s' : σ) (k : κ) (v : α)
    (hk : encode a = some k) (hf : f a s = (Except.ok v, s')) :
    cacheCallAsync encode f memo0 s0 b = cacheCall encode f memo0 s0 b ∧
    callTwiceAsync encode f [] s a a = callTwice encode f [] s a a ∧
    (callTwiceAsync encode f [] s a a).1.calls = 1 ∧
    (callTwiceAsync encode f [] s a a).1.result = Except.ok v ∧
    (callTwiceAsync encode f [] s a a).2.calls = 0 ∧
    (callTwiceAsync encode f [] s a a).2.result = Except.ok v := by
  refine ⟨rfl, rfl, ?_⟩
  simp [callTwiceAsync, cacheCallAsync, hk, hf, dictLookup, dictInsert]

/-- Witness for C5 at a concrete asynchronous callable and argument `6`. -/
theorem cache_async_matches_sync_witness :
    cacheCallAsync (fun n : Nat => some n)
        (fun n s => ((Except.ok (n + s) : Except Unit Nat), s + 1)) [(1, 1)] 9 2
      = cacheCall (fun n : Nat => some n)
        (fun n s => ((Except.ok (n + s) : Except Unit Nat), s + 1)) [(1, 1)] 9 2 ∧
    callTwiceAsync (fun n : Nat => some n)
        (fun n s => ((Except.ok (n + s) : Except Unit Nat), s + 1)) [] 0 6 6
      = callTwice (fun n : Nat => some n)
        (fun n s => ((Except.ok (n + s) : Except Unit Nat), s + 1)) [] 0 6 6 ∧
    (callTwiceAsync (fun n : Nat => some n)
        (fun n s => ((Except.ok (n + s) : Except Unit Nat), s + 1)) [] 0 6 6).1.calls = 1 ∧
    (callTwiceAsync (fun n : Nat => some n)
        (fun n s => ((Except.ok (n + s) : Except Unit Nat), s + 1)) [] 0 6 6).1.result
      = Except.ok 6 ∧
    (callTwiceAsync (fun n : Nat => some n)
        (fun n s => ((Except.ok (n + s) : Except Unit Nat), s + 1)) [] 0 6 6).2.calls = 0 ∧
    (callTwiceAsync (fun n : Nat => some n)
        (fun n s => ((Except.ok (n + s) : Except Unit Nat), s + 1)) [] 0 6 6).2.result
      = Except.ok 6 :=
  cache_async_matches_sync (fun n : Nat => some n)
    (fun n s => ((Except.ok (n + s) : Except Unit Nat), s + 1)) [(1, 1)] 9 2 6 0 1 6 6
    rfl rfl

/-- C6 counterexample: a serializer that is deterministic and canonical for
structurally equal inputs (as the spec requires) may still map structurally
unequal arguments to the same key; with the constant serializer, the
structurally unequal arguments `1` and `2` share a key, so the second call
is served from the cache (zero executions of the callable, and it returns
the first argument's stored result) instead of independently triggering an
execution — refuting the claim that unequal argument tuples always have
differing keys and each independently execute the callable. -/
theorem distinct_args_same_key_counterexample :
    (1 : Nat) ≠ 2 ∧
    (callTwice (fun _ : Nat => some (0 : Nat))
        (fun n s => ((Except.ok n : Except Unit Nat), s + 1)) [] 0 1 2).1.calls = 1 ∧
    (callTwice (fun _ : Nat => some (0 : Nat))
        (fun n s => ((Except.ok n : Except Unit Nat), s + 1)) [] 0 1 2).2.calls = 0 ∧
    (callTwice (fun _ : Nat => some (0 : Nat))
        (fun n s => ((Except.ok n : Except Unit Nat), s + 1)) [] 0 1 2).2.result
      = Except.ok 1 := by
  exact ⟨by decide, rfl, rfl, rfl⟩

/-- C6 (amended): key derivation is deterministic, so structurally equal
arguments map to the same key and the second of two identical calls is a
hit; and for two structurally unequal arguments whose derived keys differ,
the two calls each independently trigger one execution of the callable. -/
theorem distinct_keys_independent_execution
    {κ α σ ε A : Type} [DecidableEq κ]
    (encode : A → Option κ) (f : A → σ → Except ε α × σ)
    (a1 a2 : A) (s s' s'' : σ) (k1 k2 : κ) (v1 v2 : α)
    (hne : a1 ≠ a2) (h1 : encode a1 = some k1) (h2 : encode a2 = some k2)
    (hkk : k1 ≠ k2)
    (hf1 : f a1 s = (Except.ok v1, s')) (hf2 : f a2 s' = (Except.ok v2, s'')) :
    (callTwice encode f [] s a1 a1).2.calls = 0 ∧
    (callTwice encode f [] s a1 a1).2.result = Except.ok v1 ∧
    (callTwice encode f [] s a1 a2).1.calls = 1 ∧
    (callTwice encode f [] s a1 a2).2.calls = 1 ∧
    (callTwice encode f [] s a1 a2).2.result = Except.ok v2 := by
  have hkk2 : ¬(k2 = k1) := fun h => hkk h.symm
  simp [callTwice, cacheCall, h1, h2, hf1, hf2, dictLookup, dictInsert, hkk2]

/-- Witness for the amended C6: identity serializer, arguments `1` and `2`. -/
theorem distinct_keys_independent_execution_witness :
    (callTwice (fun n : Nat => some n)
        (fun n s => ((Except.ok n : Except Unit Nat), s + 1)) [] 0 1 1).2.calls = 0 ∧
    (callTwice (fun n : Nat => some n)
        (fun n s => ((Except.ok n : Except Unit Nat), s + 1)) [] 0 1 1).2.result
      = Except.ok 1 ∧
    (callTwice (fun n : Nat => some n)
        (fun n s => ((Except.ok n : Except Unit Nat), s + 1)) [] 0 1 2).1.calls = 1 ∧
    (callTwice (fun n : Nat => some n)
        (fun n s => ((Except.ok n : Except Unit Nat), s + 1)) [] 0 1 2).2.calls = 1 ∧
    (callTwice (fun n : Nat => some n)
        (fun n s => ((Except.ok n : Except Unit Nat), s + 1)) [] 0 1 2).2.result
      = Except.ok 2 :=
  distinct_keys_independent_execution (fun n : Nat => some n)
    (fun n s => ((Except.ok n : Except Unit Nat), s + 1)) 1 2 0 1 2 1 2 1 2
    (by decide) rfl rfl (by decide) rfl rfl

/-- C8: the memo table only grows: any call of either wrapper body leaves
every existing binding in place with its value unchanged (nothing is
removed, replaced, or evicted), and any call whose derived key is already
bound returns the stored value without invoking the callable. -/
theorem cache_memo_monotone
    {κ α σ ε A : Type} [DecidableEq κ]
    (encode : A → Option κ) (f : A → σ → Except ε α × σ)
    (memo : List (κ × α)) (s : σ) (a b : A) (k : κ) (v : α)
    (hkv : dictLookup memo k = some v) (hb : encode b = some k) :
    dictLookup (cacheCall encode f memo s a).memo k = some v ∧
    dictLookup (cacheCallAsync encode f memo s a).memo k = some v ∧
    (cacheCall encode f memo s b).result = Except.ok v ∧
    (cacheCall encode f memo s b).calls = 0 := by
  refine ⟨?_, ?_, ?_, ?_⟩
  · cases ha : encode a with
    | none =>
      rcases hfa : f a s with ⟨r, s'⟩
      cases r <;> simp [cacheCall, ha, hfa, hkv]
    | some kc =>
      cases hm : dictLookup memo kc with
      | some w => simp [cacheCall, ha, hm, hkv]
      | none =>
        rcases hfa : f a s with ⟨r, s'⟩
        cases r with
        | error e => simp [cacheCall, ha, hm, hfa, hkv]
        | ok w =>
          have hne : k ≠ kc := by
            intro hkk
            rw [hkk, hm] at hkv
            exact Option.noConfusion hkv
          simp [cacheCall, ha, hm, hfa,
            dictLookup_dictInsert_preserve memo k kc v w hkv hne]
  · cases ha : encode a with
    | none =>
      rcases hfa : f a s with ⟨r, s'⟩
      cases r <;> simp [cacheCallAsync, ha, hfa, hkv]
    | some kc =>
      cases hm : dictLookup memo kc with
      | some w => simp [cacheCallAsync, ha, hm, hkv]
      | none =>
        rcases hfa : f a s with ⟨r, s'⟩
        cases r with
        | error e => simp [cacheCallAsync, ha, hm, hfa, hkv]
        | ok w =>
          have hne : k ≠ kc := by
            intro hkk
            rw [hkk, hm] at hkv
            exact Option.noConfusion hkv
          simp [cacheCallAsync, ha, hm, hfa,
            dictLookup_dictInsert_preserve memo k kc v w hkv hne]
  · simp [cacheCall, hb, hkv]
  · simp [cacheCall, hb, hkv]

/-- Witness for C8: a table already binding `2 ↦ 9` survives a call with
the fresh argument `7`, and a call with argument `2` hits. -/
theorem cache_memo_monotone_witness :
    dictLookup (cacheCall (fun n : Nat => some n)
        (fun n s => ((Except.ok (n + s) : Except Unit Nat), s + 1)) [(2, 9)] 0 7).memo 2
      = some 9 ∧
    dictLookup (cacheCallAsync (fun n : Nat => some n)
        (fun n s => ((Except.ok (n + s) : Except Unit Nat), s + 1)) [(2, 9)] 0 7).memo 2
      = some 9 ∧
    (cacheCall (fun n : Nat => some n)
        (fun n s => ((Except.ok (n + s) : Except Unit Nat), s + 1)) [(2, 9)] 0 2).result
      = Except.ok 9 ∧
    (cacheCall (fun n : Nat => some n)
        (fun n s => ((Except.ok (n + s) : Except Unit Nat), s + 1)) [(2, 9)] 0 2).calls = 0 :=
  cache_memo_monotone (fun n : Nat => some n)
    (fun n s => ((Except.ok (n + s) : Except Unit Nat), s + 1)) [(2, 9)] 0 7 2 2 9
    rfl rfl

end Huti
